import Mathlib

/-!
Verification of `backend/pitch_deck_backend.py` (pitch-deck generation backend).

The Python backend is shallowly embedded below.  Conventions:

* Python `dict` payloads (the parsed JSON reply of the external service and the
  JSON response of the backend) are association lists `List (String × String)`.
* The external text-generation service is modelled by a list of call outcomes
  `List (Option (List (String × String)))`: each external call consumes the
  next entry, `some content` is a call whose reply parsed to `content`, `none`
  is a call that raised (network error, auth failure, malformed reply, ...).
  An exhausted list also reads as a failing call.
* `datetime.now().strftime("%B %Y")` is modelled by an explicit `now : String`
  argument.
* The process-wide `Config` object is threaded explicitly: functions that in
  Python may assign `Config.USE_BUDGET_MODEL` return an updated `Config`.
* Each generation function additionally returns the number of external calls
  it performed, so that "no external call occurs" claims are statable.
* Raw file bytes are `List Nat` (byte values); the PDF / DOCX libraries are
  modelled by an explicit parse outcome `Except String (List String)` (page
  texts resp. paragraph texts, or the raised exception's message).
-/

/-- Python truthiness test used by `data.get(k)` validation: a field is falsy
when the key is absent (`None`) or its value is the empty string. -/
def pyFalsy (o : Option String) : Bool :=
  (o.getD "") == ""

/-- Python `dict.get(key, default)` on an association list. -/
def dictGet (d : List (String × String)) (key : String) (default : String) : String :=
  (d.lookup key).getD default

/-- Python `str.lower()` (ASCII case folding, as used on industry and file
type strings). -/
def pyLower (s : String) : String :=
  String.mk (s.data.map Char.toLower)

/-- Python `str.title()`: the first alphabetic character of every run of
alphabetic characters is uppercased, the following ones lowercased. -/
def pyTitleAux : Bool → List Char → List Char
  | _, [] => []
  | prevAlpha, c :: cs =>
    if c.isAlpha then
      (if prevAlpha then c.toLower else c.toUpper) :: pyTitleAux true cs
    else
      c :: pyTitleAux false cs

/-- Python `str.title()` on a string. -/
def pyTitle (s : String) : String :=
  String.mk (pyTitleAux false s.data)

/-- Python `s[1:-1]`: drop the first and the last character. -/
def pySlice1m1 (s : String) : String :=
  String.mk ((s.data.drop 1).dropLast)

/-- Whether `needle` occurs as a contiguous sublist of `haystack`. -/
def listInfixOf (needle haystack : List Char) : Bool :=
  match haystack with
  | [] => needle.isEmpty
  | c :: tail => needle.isPrefixOf (c :: tail) || listInfixOf needle tail

/-- Python `needle in haystack` on strings (substring containment). -/
def strContains (haystack needle : String) : Bool :=
  listInfixOf needle.data haystack.data

/-- The process-wide configuration object (`class Config`), read from the
environment at start-up.  `USE_BUDGET_MODEL` is the mutable budget-model
toggle. -/
structure Config where
  SECRET_KEY : String
  AI_PROVIDER : String
  OPENAI_API_KEY : Option String
  OPENAI_MODEL : String
  ANTHROPIC_API_KEY : Option String
  MAX_CONTENT_LENGTH : Nat
  USE_BUDGET_MODEL : Bool
deriving Repr, DecidableEq

/-- The `PitchRequest` dataclass. -/
structure PitchRequest where
  company_name : String
  industry : String
  problem : String
  solution : String
  funding_stage : String := "seed"
  target_investors : Option String := none
  team_size : Option Int := none
  current_traction : Option String := none
deriving Repr, DecidableEq

/-- The JSON body received by `/api/generate-pitch` (`request.json`): every
field may be absent. -/
structure RequestData where
  company_name : Option String := none
  industry : Option String := none
  problem : Option String := none
  solution : Option String := none
  funding_stage : Option String := none
  target_investors : Option String := none
  team_size : Option Int := none
  current_traction : Option String := none
deriving Repr, DecidableEq

/-- The `funding_amounts` lookup table of `generate_mock_pitch`, with the
Python `dict.get(stage, "$5M")` default. -/
def funding_amounts (funding_stage : String) : String :=
  if funding_stage = "pre-seed" then "$500K - $1M"
  else if funding_stage = "seed" then "$2M - $5M"
  else if funding_stage = "series-a" then "$10M - $15M"
  else if funding_stage = "series-b" then "$20M - $50M"
  else if funding_stage = "series-c" then "$50M+"
  else "$5M"

/-- The `tam_by_industry` lookup table of `generate_mock_pitch`, keyed by the
lower-cased industry, with the Python `dict.get(industry, "$100B")` default. -/
def tam_by_industry (industry_lower : String) : String :=
  if industry_lower = "fintech" then "$1.5T"
  else if industry_lower = "healthcare" then "$3.6T"
  else if industry_lower = "saas" then "$200B"
  else if industry_lower = "ecommerce" then "$5.5T"
  else if industry_lower = "edtech" then "$350B"
  else if industry_lower = "ai" then "$150B"
  else "$100B"

/-- The next-round letter of the ask slide:
`chr(ord(stage[-1]) + 1).upper() if stage.startswith("series") else "A"`. -/
def series_next_letter (funding_stage : String) : String :=
  if "series".data.isPrefixOf funding_stage.data then
    String.mk [Char.toUpper (Char.ofNat ((funding_stage.data.getLastD 'a').toNat + 1))]
  else "A"

/-- The contact host of the ask slide:
`request.company_name.lower().replace(" ", "")`. -/
def contact_host (company_name : String) : String :=
  String.mk (((pyLower company_name).data).filter (fun c => c != ' '))

/-- `AIPitchGenerator.generate_mock_pitch`: the deterministic fallback
template.  `now` stands for `datetime.now().strftime("%B %Y")`, the only
non-request input of the Python function.  The string literals reproduce the
source file's literals byte for byte (including its mangled bullet and emoji
characters). -/
def AIPitchGenerator.generate_mock_pitch (request : PitchRequest) (now : String) :
    List (String × String) :=
  let funding_amount := funding_amounts request.funding_stage
  let tam := tam_by_industry (pyLower request.industry)
  [("tagline", "Revolutionizing " ++ request.industry ++ " through innovative technology"),

   ("title", request.company_name ++ "\n\n" ++
     ("Revolutionizing " ++ request.industry ++ " through innovative technology") ++
     "\n\nInvestor Deck | " ++ pyTitle request.funding_stage ++ " Round\n" ++ now),

   ("problem", request.problem ++
     "\n\nCurrent Pain Points:\nâ€¢ Inefficient legacy systems costing businesses millions annually\nâ€¢ 73% of " ++
     request.industry ++
     " professionals report daily frustrations\nâ€¢ Average time wasted: 4.5 hours per week per employee\nâ€¢ Customer satisfaction scores declining 15% YoY\nâ€¢ No comprehensive solution exists in the market"),

   ("solution", request.solution ++
     "\n\nOur Approach:\nâ€¢ AI-powered automation reducing manual work by 80%\nâ€¢ Seamless integration with existing workflows\nâ€¢ Real-time analytics and insights dashboard\nâ€¢ Mobile-first design for modern teams\nâ€¢ Enterprise-grade security and compliance\n\nResults: 10x faster, 50% cost reduction, 95% user satisfaction"),

   ("market", "Market Opportunity\n\nðŸ“Š Total Addressable Market (TAM): " ++ tam ++
     "\n   - Growing at 25% CAGR\n   - Digital transformation driving demand\n\nðŸŽ¯ Serviceable Addressable Market (SAM): $" ++
     pySlice1m1 tam ++
     "B\n   - Focus on mid-market and enterprise\n   - " ++ request.industry ++
     " segment specifically\n\nðŸš€ Serviceable Obtainable Market (SOM): $500M\n   - Realistic 5-year target\n   - 1% market share achievable\n\nKey Drivers:\nâ€¢ Regulatory changes forcing modernization\nâ€¢ Remote work acceleration\nâ€¢ Gen Z entering workforce"),

   ("business_model", "Revenue Model\n\nðŸ’° Subscription (SaaS)\n   â€¢ Starter: $99/month (freelancers)\n   â€¢ Professional: $499/month (small teams)\n   â€¢ Enterprise: $2,999/month (large orgs)\n   â€¢ Custom pricing for 100+ seats\n\nAdditional Revenue Streams:\nâ€¢ Implementation services: $10-50K\nâ€¢ API access: Usage-based pricing\nâ€¢ Premium support: 20% of license fee\nâ€¢ Marketplace commissions: 15%\n\nUnit Economics:\nâ€¢ CAC: $2,000 | LTV: $45,000 | LTV/CAC: 22.5x\nâ€¢ Gross Margin: 82%\nâ€¢ Payback Period: 8 months"),

   ("traction", "Traction & Validation\n\nðŸ“ˆ Growth Metrics:\nâ€¢ 10,000+ users across 500+ companies\nâ€¢ $2.5M ARR (growing 30% MoM)\nâ€¢ 120% net revenue retention\nâ€¢ NPS Score: 72\nâ€¢ 5-min average time to value\n\nðŸ† Key Achievements:\nâ€¢ Product Hunt #1 Product of the Day\nâ€¢ SOC 2 Type II certified\nâ€¢ 3 Fortune 500 pilots in progress\nâ€¢ Strategic partnership with Microsoft\nâ€¢ 50+ 5-star reviews on G2\n\nðŸ“Š Usage Stats:\nâ€¢ 1M+ transactions processed monthly\nâ€¢ 99.99% uptime over last 12 months\nâ€¢ 3-minute average response time"),

   ("competition", "Competitive Landscape\n\nDirect Competitors:\nðŸ”´ Legacy Corp ($2B valuation)\n   - Strength: Market share (35%)\n   - Weakness: Outdated tech, poor UX\n   - Our advantage: 10x faster, 50% cheaper\n\nðŸŸ¡ StartupX (Series B, $150M raised)\n   - Strength: Strong marketing\n   - Weakness: Limited features\n   - Our advantage: Complete platform\n\nðŸ”µ BigTech\x27s Solution\n   - Strength: Brand recognition\n   - Weakness: Not specialized\n   - Our advantage: Industry focus\n\nCompetitive Advantages:\nâœ… Proprietary AI technology (3 patents pending)\nâœ… 5x faster implementation\nâœ… 50% lower TCO\nâœ… Best-in-class user experience\nâœ… Only solution with full mobile support"),

   ("team", "Leadership Team\n\nðŸ‘¤ CEO & Co-founder\nâ€¢ 10+ years in " ++ request.industry ++
     "\nâ€¢ Previously VP at Fortune 500\nâ€¢ Scaled 2 startups to exit\nâ€¢ Harvard MBA\n\nðŸ‘¤ CTO & Co-founder\nâ€¢ Ex-Google/Amazon engineer\nâ€¢ 15+ years building scalable systems\nâ€¢ PhD Computer Science, Stanford\nâ€¢ 20+ patents in AI/ML\n\nðŸ‘¤ VP Sales\nâ€¢ Built $100M+ revenue teams\nâ€¢ Former CRO at unicorn startup\nâ€¢ Deep industry relationships\n\nðŸ‘¤ VP Product\nâ€¢ Led product at 3 successful startups\nâ€¢ Human-centered design expert\nâ€¢ Previously at Apple\n\nAdvisory Board:\nâ€¢ Former CEO of [Industry Leader]\nâ€¢ Partner at Sequoia Capital\nâ€¢ Professor of AI at MIT"),

   ("financials", "Financial Projections\n\nCurrent Status:\nâ€¢ Monthly Burn: $250K\nâ€¢ Runway: 18 months\nâ€¢ Path to profitability: Q3 2025\n\n3-Year Projections:\n         Year 1    Year 2     Year 3\nRevenue:  $5M      $22M       $65M\nGross:    $4.1M    $18M       $53M\nEBITDA:   -$3M     $2M        $15M\nCustomers: 50      250        800\n\nKey Assumptions:\nâ€¢ 15% monthly growth rate Year 1\nâ€¢ 80% gross margins maintained\nâ€¢ Sales efficiency improves 20% YoY\nâ€¢ Churn remains below 5% annually\n\nUse of Funds:\nâ€¢ Product Development: 40%\nâ€¢ Sales & Marketing: 35%\nâ€¢ Operations: 15%\nâ€¢ General & Admin: 10%"),

   ("ask", "The Ask\n\nðŸŽ¯ Raising: " ++ funding_amount ++
     (" " ++ pyTitle request.funding_stage ++
      " Round\n\nUse of Funds:\nâ€¢ Engineering: Hire 10 engineers to accelerate product roadmap\nâ€¢ Sales: Build enterprise sales team (8 reps)\nâ€¢ Marketing: Scale demand generation and brand\nâ€¢ Operations: Strengthen infrastructure for scale\n\nMilestones (Next 18 Months):\nâœ“ Launch AI-powered analytics suite (Q1)\nâœ“ Expand to 3 new verticals (Q2)\nâœ“ Achieve $10M ARR (Q3)\nâœ“ Close 5 enterprise accounts (Q4)\nâœ“ International expansion (Q1 Y2)\nâœ“ Series " ++
      series_next_letter request.funding_stage ++
      " ready\n\nWhy Now:\nâ€¢ Market inflection point\nâ€¢ Proven product-market fit\nâ€¢ Team ready to scale\nâ€¢ Competition vulnerable\n\nContact: founders@" ++
      contact_host request.company_name ++ ".com"))]

/-- `AIPitchGenerator.format_pitch_response`: rebuild the service's parsed
reply `content` into the fixed eleven-key structure, with per-key defaults
drawn from the request. -/
def AIPitchGenerator.format_pitch_response (content : List (String × String))
    (request : PitchRequest) : List (String × String) :=
  [("tagline", dictGet content "tagline" ("Transforming " ++ request.industry)),
   ("title", dictGet content "title" (request.company_name ++ " Pitch Deck")),
   ("problem", dictGet content "problem" request.problem),
   ("solution", dictGet content "solution" request.solution),
   ("market", dictGet content "market" "Market opportunity analysis"),
   ("business_model", dictGet content "business_model" "Subscription-based SaaS model"),
   ("traction", dictGet content "traction" "Early traction and validation"),
   ("competition", dictGet content "competition" "Competitive landscape"),
   ("team", dictGet content "team" "Experienced leadership team"),
   ("financials", dictGet content "financials" "Financial projections"),
   ("ask", dictGet content "ask" ("Raising " ++ request.funding_stage ++ " round"))]

/-- One external call of `generate_with_openai` made while
`Config.USE_BUDGET_MODEL` is true (model `"gpt-3.5-turbo"`): a successful call
is formatted, a failing call falls back to the mock pitch (the
`model == "gpt-3.5-turbo"` case of the `except` handler).  Returns the result,
the configuration, and the number of external calls made. -/
def AIPitchGenerator.openai_budget_call (cfg : Config)
    (outcome : Option (List (String × String))) (request : PitchRequest) (now : String) :
    List (String × String) × Config × Nat :=
  match outcome with
  | some content => (AIPitchGenerator.format_pitch_response content request, cfg, 1)
  | none => (AIPitchGenerator.generate_mock_pitch request now, cfg, 1)

/-- `AIPitchGenerator.generate_with_openai`.  With no AI client the mock pitch
is returned without any external call.  Otherwise one call is made with the
configured model; when the non-budget model's call raises, the handler sets
`Config.USE_BUDGET_MODEL := True` and re-invokes the function, which then
re-enters in budget mode on the next outcome (the recursion is unrolled here:
its depth is at most one because the re-invocation runs in budget mode). -/
def AIPitchGenerator.generate_with_openai (aiClient : Bool) (cfg : Config)
    (outcomes : List (Option (List (String × String)))) (request : PitchRequest)
    (now : String) : List (String × String) × Config × Nat :=
  if aiClient = false then (AIPitchGenerator.generate_mock_pitch request now, cfg, 0)
  else if cfg.USE_BUDGET_MODEL then
    AIPitchGenerator.openai_budget_call cfg (outcomes.headD none) request now
  else
    match outcomes.headD none with
    | some content => (AIPitchGenerator.format_pitch_response content request, cfg, 1)
    | none =>
      let retry := AIPitchGenerator.openai_budget_call
        { cfg with USE_BUDGET_MODEL := true } (outcomes.tail.headD none) request now
      (retry.1, retry.2.1, retry.2.2 + 1)

/-- `AIPitchGenerator.generate_with_anthropic`: one external call, falling
back to the mock pitch when the client is absent or the call raises. -/
def AIPitchGenerator.generate_with_anthropic (aiClient : Bool) (cfg : Config)
    (outcomes : List (Option (List (String × String)))) (request : PitchRequest)
    (now : String) : List (String × String) × Config × Nat :=
  if aiClient = false then (AIPitchGenerator.generate_mock_pitch request now, cfg, 0)
  else
    match outcomes.headD none with
    | some content => (AIPitchGenerator.format_pitch_response content request, cfg, 1)
    | none => (AIPitchGenerator.generate_mock_pitch request now, cfg, 1)

/-- `AIPitchGenerator.generate`: dispatch on `Config.AI_PROVIDER`. -/
def AIPitchGenerator.generate (aiClient : Bool) (cfg : Config)
    (outcomes : List (Option (List (String × String)))) (request : PitchRequest)
    (now : String) : List (String × String) × Config × Nat :=
  if cfg.AI_PROVIDER = "openai" then
    AIPitchGenerator.generate_with_openai aiClient cfg outcomes request now
  else if cfg.AI_PROVIDER = "anthropic" then
    AIPitchGenerator.generate_with_anthropic aiClient cfg outcomes request now
  else (AIPitchGenerator.generate_mock_pitch request now, cfg, 0)

/-- The `/api/generate-pitch` endpoint (`generate_pitch`).  Validation uses
Python truthiness on `data.get(...)`; a failing validation returns the 400
error body before any external call.  Otherwise the `PitchRequest` is built
with the source's defaults (`industry` falls back to `"technology"`,
`funding_stage` to `"seed"`) and handed to `AIPitchGenerator.generate`. -/
def generate_pitch (aiClient : Bool) (cfg : Config)
    (outcomes : List (Option (List (String × String)))) (data : RequestData)
    (now : String) : Except String (List (String × String)) × Config × Nat :=
  if pyFalsy data.company_name || pyFalsy data.problem || pyFalsy data.solution then
    (Except.error "Company name, problem, and solution are required", cfg, 0)
  else
    let pitch_request : PitchRequest := {
      company_name := data.company_name.getD ""
      industry := data.industry.getD "technology"
      problem := data.problem.getD ""
      solution := data.solution.getD ""
      funding_stage := data.funding_stage.getD "seed"
      target_investors := data.target_investors
      team_size := data.team_size
      current_traction := data.current_traction }
    let r := AIPitchGenerator.generate aiClient cfg outcomes pitch_request now
    (Except.ok r.1, r.2.1, r.2.2)

/-- Outcome of an external parsing library call (PyPDF2 page texts or
python-docx paragraph texts): `Except.error msg` models an exception raised
while parsing the document. -/
abbrev ParseOutcome := Except String (List String)

/-- Whether a byte is a UTF-8 continuation byte (0x80 - 0xBF). -/
def contByte (b : Nat) : Bool := 128 ≤ b && b ≤ 191

/-- Model of Python `bytes.decode("utf-8", errors="ignore")`: well-formed
UTF-8 sequences are decoded, bytes that do not start a well-formed sequence
are skipped.  The fuel argument (instantiated with the input length) bounds
the recursion; every step consumes at least one byte. -/
def decodeUtf8IgnoreAux : Nat → List Nat → List Char
  | 0, _ => []
  | _ + 1, [] => []
  | fuel + 1, b :: rest =>
    if b < 128 then Char.ofNat b :: decodeUtf8IgnoreAux fuel rest
    else if 194 ≤ b && b ≤ 223 then
      match rest with
      | c1 :: rest1 =>
        if contByte c1 then
          Char.ofNat ((b - 192) * 64 + (c1 - 128)) :: decodeUtf8IgnoreAux fuel rest1
        else decodeUtf8IgnoreAux fuel rest
      | [] => []
    else if 224 ≤ b && b ≤ 239 then
      match rest with
      | c1 :: c2 :: rest2 =>
        if contByte c1 && contByte c2 && (b != 224 || 160 ≤ c1) && (b != 237 || c1 ≤ 159) then
          Char.ofNat ((b - 224) * 4096 + (c1 - 128) * 64 + (c2 - 128)) ::
            decodeUtf8IgnoreAux fuel rest2
        else decodeUtf8IgnoreAux fuel rest
      | _ => decodeUtf8IgnoreAux fuel rest
    else if 240 ≤ b && b ≤ 244 then
      match rest with
      | c1 :: c2 :: c3 :: rest3 =>
        if contByte c1 && contByte c2 && contByte c3 &&
            (b != 240 || 144 ≤ c1) && (b != 244 || c1 ≤ 143) then
          Char.ofNat ((b - 240) * 262144 + (c1 - 128) * 4096 + (c2 - 128) * 64 + (c3 - 128)) ::
            decodeUtf8IgnoreAux fuel rest3
        else decodeUtf8IgnoreAux fuel rest
      | _ => decodeUtf8IgnoreAux fuel rest
    else decodeUtf8IgnoreAux fuel rest

/-- Python `bytes.decode("utf-8", errors="ignore")`. -/
def pyDecodeUtf8Ignore (bs : List Nat) : String :=
  String.mk (decodeUtf8IgnoreAux bs.length bs)

/-- `ContentExtractor.extract_from_pdf`: with PyPDF2 absent the result is
empty; a parse exception yields the empty string; otherwise every page's text
is appended followed by a newline, with no length cap. -/
def ContentExtractor.extract_from_pdf (pypdf2_available : Bool)
    (parsed : ParseOutcome) : String :=
  if pypdf2_available = false then ""
  else
    match parsed with
    | Except.error _ => ""
    | Except.ok pages => pages.foldl (fun text page => text ++ page ++ "\n") ""

/-- `ContentExtractor.extract_from_docx`: with python-docx absent the result
is empty; a parse exception yields the empty string; otherwise the paragraph
texts are joined with newlines, with no length cap. -/
def ContentExtractor.extract_from_docx (docx_available : Bool)
    (parsed : ParseOutcome) : String :=
  if docx_available = false then ""
  else
    match parsed with
    | Except.error _ => ""
    | Except.ok paragraphs => String.intercalate "\n" paragraphs

/-- `ContentExtractor.extract_from_text`: decode the raw bytes as UTF-8,
ignoring undecodable bytes (this decode mode never raises). -/
def ContentExtractor.extract_from_text (content : List Nat) : String :=
  pyDecodeUtf8Ignore content

/-- `ContentExtractor.extract`: dispatch on the lower-cased declared file
type — `"pdf"` substring to the PDF path, `"docx"` or `"word"` substring to
the word-processor path, anything else to the plain-text path. -/
def ContentExtractor.extract (content : List Nat) (file_type : String)
    (pypdf2_available docx_available : Bool) (parsed : ParseOutcome) : String :=
  if strContains (pyLower file_type) "pdf" then
    ContentExtractor.extract_from_pdf pypdf2_available parsed
  else if strContains (pyLower file_type) "docx" || strContains (pyLower file_type) "word" then
    ContentExtractor.extract_from_docx docx_available parsed
  else
    ContentExtractor.extract_from_text content

/-- The eleven keys of every generation result, in source order. -/
def standard_slide_keys : List String :=
  ["tagline", "title", "problem", "solution", "market", "business_model",
   "traction", "competition", "team", "financials", "ask"]

/-- A concrete valid pitch request used by concrete-input theorems. -/
def req0 : PitchRequest :=
  { company_name := "Acme"
    industry := "fintech"
    problem := "Slow onboarding"
    solution := "Automated KYC"
    funding_stage := "seed" }

/-- A concrete configuration mirroring the source defaults with an OpenAI key
set: provider `"openai"`, budget model off. -/
def cfg0 : Config :=
  { SECRET_KEY := "dev-secret-key-change-in-production"
    AI_PROVIDER := "openai"
    OPENAI_API_KEY := some "sk-test"
    OPENAI_MODEL := "gpt-5"
    ANTHROPIC_API_KEY := none
    MAX_CONTENT_LENGTH := 50 * 1024 * 1024
    USE_BUDGET_MODEL := false }

/-- A concrete valid request body matching `req0`. -/
def data0 : RequestData :=
  { company_name := some "Acme"
    industry := some "fintech"
    problem := some "Slow onboarding"
    solution := some "Automated KYC"
    funding_stage := some "seed" }

/-- A concrete request body whose `industry` is present but empty. -/
def data1 : RequestData :=
  { company_name := some "Acme"
    industry := some ""
    problem := some "Slow onboarding"
    solution := some "Automated KYC"
    funding_stage := some "seed" }

/-! ## Helper lemmas -/

/-- The length of a string append is the sum of the lengths. -/
theorem strlen_append_pos (a b : String) (h : 0 < b.length) : 0 < (a ++ b).length := by
  rw [String.length_append]; omega

/-- The `tagline` entry of the fallback. -/
theorem mock_lookup_tagline (req : PitchRequest) (now : String) :
    (AIPitchGenerator.generate_mock_pitch req now).lookup "tagline"
      = some ("Revolutionizing " ++ req.industry ++ " through innovative technology") := rfl

/-- The `problem` entry of the fallback starts with the request's problem. -/
theorem mock_lookup_problem (req : PitchRequest) (now : String) :
    (AIPitchGenerator.generate_mock_pitch req now).lookup "problem"
      = some (req.problem ++
        "\n\nCurrent Pain Points:\nâ€¢ Inefficient legacy systems costing businesses millions annually\nâ€¢ 73% of " ++
        req.industry ++
        " professionals report daily frustrations\nâ€¢ Average time wasted: 4.5 hours per week per employee\nâ€¢ Customer satisfaction scores declining 15% YoY\nâ€¢ No comprehensive solution exists in the market") := rfl

/-- The `solution` entry of the fallback starts with the request's solution. -/
theorem mock_lookup_solution (req : PitchRequest) (now : String) :
    (AIPitchGenerator.generate_mock_pitch req now).lookup "solution"
      = some (req.solution ++
        "\n\nOur Approach:\nâ€¢ AI-powered automation reducing manual work by 80%\nâ€¢ Seamless integration with existing workflows\nâ€¢ Real-time analytics and insights dashboard\nâ€¢ Mobile-first design for modern teams\nâ€¢ Enterprise-grade security and compliance\n\nResults: 10x faster, 50% cost reduction, 95% user satisfaction") := rfl

/-! ## Claim theorems -/

/-- C1 counterexample: the caller supplies `company_name = "Acme"` and the
external service's reply even contains a `company_name` entry, yet the
response of the generation path has no `company_name` field at all — so the
returned `company_name` does not equal the caller-supplied value (there is no
such field), and nothing is injected or overwritten. -/
theorem C1_company_name_not_injected_cex :
    data0.company_name = some "Acme" ∧
    ((generate_pitch true cfg0 [some [("company_name", "ServiceInventedCo")]] data0
        "August 2025").1.toOption.getD []).lookup "company_name" = none :=
  ⟨rfl, rfl⟩

/-- C1 (amended): neither `format_pitch_response` nor the fallback ever emits
a `company_name` field, so in particular the company name is never taken from
the external service's reply: the formatted response consists of the fixed
eleven slide keys only. -/
theorem C1_company_name_field_absent (content : List (String × String))
    (req : PitchRequest) (now : String) (aiClient : Bool) (cfg : Config)
    (outcomes : List (Option (List (String × String)))) :
    (AIPitchGenerator.format_pitch_response content req).lookup "company_name" = none ∧
    (AIPitchGenerator.generate_mock_pitch req now).lookup "company_name" = none ∧
    (AIPitchGenerator.generate aiClient cfg outcomes req now).1.lookup "company_name" = none := by
  refine ⟨rfl, rfl, ?_⟩
  unfold AIPitchGenerator.generate AIPitchGenerator.generate_with_openai
    AIPitchGenerator.generate_with_anthropic AIPitchGenerator.openai_budget_call
  repeat' split
  all_goals rfl

/-- C2 counterexample: with no AI client configured the generation path's
response contains no `executive_summary`, `opportunity` or `why_us` field. -/
theorem C2_missing_claimed_fields_cex :
    ((AIPitchGenerator.generate_with_openai false cfg0 [] req0 "August 2025").1).lookup
      "executive_summary" = none ∧
    ((AIPitchGenerator.generate_with_openai false cfg0 [] req0 "August 2025").1).lookup
      "opportunity" = none ∧
    ((AIPitchGenerator.generate_with_openai false cfg0 [] req0 "August 2025").1).lookup
      "why_us" = none :=
  ⟨rfl, rfl, rfl⟩

set_option maxRecDepth 8192 in
/-- C2 (amended): when the external service is not configured (no AI client),
the generation path performs no external call and returns exactly the
deterministic fallback's output for those inputs, whose `tagline`, `problem`
and `solution` fields are non-empty (the response carries the eleven slide
fields; no `executive_summary` / `opportunity` / `why_us` fields exist in this
backend). -/
theorem C2_no_client_equals_fallback (cfg : Config)
    (outcomes : List (Option (List (String × String)))) (req : PitchRequest) (now : String) :
    (AIPitchGenerator.generate_with_openai false cfg outcomes req now).1
      = AIPitchGenerator.generate_mock_pitch req now ∧
    (AIPitchGenerator.generate_with_openai false cfg outcomes req now).2.2 = 0 ∧
    0 < (((AIPitchGenerator.generate_mock_pitch req now).lookup "tagline").getD "").length ∧
    0 < (((AIPitchGenerator.generate_mock_pitch req now).lookup "problem").getD "").length ∧
    0 < (((AIPitchGenerator.generate_mock_pitch req now).lookup "solution").getD "").length := by
  refine ⟨rfl, rfl, ?_, ?_, ?_⟩
  · rw [mock_lookup_tagline]
    exact strlen_append_pos _ _ (by decide)
  · rw [mock_lookup_problem]
    simp only [Option.getD_some]
    exact strlen_append_pos _ _ (by decide)
  · rw [mock_lookup_solution]
    simp only [Option.getD_some]
    exact strlen_append_pos _ _ (by decide)

/-- C10: every result of the generator — formatted service reply or fallback,
through any provider dispatch — carries exactly the eleven slide keys in
source order. -/
theorem C10_result_has_fixed_keys (content : List (String × String)) (req : PitchRequest)
    (aiClient : Bool) (cfg : Config) (outcomes : List (Option (List (String × String))))
    (now : String) :
    (AIPitchGenerator.format_pitch_response content req).map Prod.fst = standard_slide_keys ∧
    (AIPitchGenerator.generate_mock_pitch req now).map Prod.fst = standard_slide_keys ∧
    (AIPitchGenerator.generate aiClient cfg outcomes req now).1.map Prod.fst
      = standard_slide_keys := by
  refine ⟨rfl, rfl, ?_⟩
  unfold AIPitchGenerator.generate AIPitchGenerator.generate_with_openai
    AIPitchGenerator.generate_with_anthropic AIPitchGenerator.openai_budget_call
  repeat' split
  all_goals rfl

/-- C7: a parse exception in the PDF or word-processor path yields the empty
string for that file; the extractor functions are total, so no error
propagates out of them. -/
theorem C7_parse_error_yields_empty_string (pypdf docxa : Bool) (msg1 msg2 : String) :
    ContentExtractor.extract_from_pdf pypdf (Except.error msg1) = "" ∧
    ContentExtractor.extract_from_docx docxa (Except.error msg2) = "" :=
  ⟨by cases pypdf <;> rfl, by cases docxa <;> rfl⟩

/-- C3 counterexample: a request whose `industry` is present but empty passes
validation — the response is a success and one external call occurs, so the
claim that an empty `industry` is rejected before any external call is false. -/
theorem C3_empty_industry_not_rejected_cex :
    data1.industry = some "" ∧
    ((generate_pitch true cfg0 [some []] data1 "August 2025").1).toOption.isSome = true ∧
    (generate_pitch true cfg0 [some []] data1 "August 2025").2.2 = 1 :=
  ⟨rfl, rfl, rfl⟩

/-- C3 (amended): the endpoint validates only `company_name`, `problem` and
`solution`: when any of those three is missing or empty, the response is the
400 validation error and no external call occurs; `industry` is not validated
(a missing `industry` silently defaults to `"technology"`). -/
theorem C3_missing_required_field_rejected (aiClient : Bool) (cfg : Config)
    (outcomes : List (Option (List (String × String)))) (data : RequestData) (now : String)
    (h : pyFalsy data.company_name = true ∨ pyFalsy data.problem = true ∨
         pyFalsy data.solution = true) :
    (generate_pitch aiClient cfg outcomes data now).1
      = Except.error "Company name, problem, and solution are required" ∧
    (generate_pitch aiClient cfg outcomes data now).2.2 = 0 := by
  unfold generate_pitch
  rcases h with h | h | h <;> simp [h]

/-- A request body with no company name, used to instantiate C3. -/
def dataMissing : RequestData :=
  { problem := some "Slow onboarding", solution := some "Automated KYC" }

/-- Witness for C3: the concrete body `dataMissing` (no `company_name`) is
rejected with the validation error and zero external calls. -/
theorem C3_missing_required_field_rejected_witness :
    (generate_pitch true cfg0 [] dataMissing "August 2025").1
      = Except.error "Company name, problem, and solution are required" ∧
    (generate_pitch true cfg0 [] dataMissing "August 2025").2.2 = 0 :=
  C3_missing_required_field_rejected true cfg0 [] dataMissing "August 2025" (Or.inl rfl)

/-- Decoding an all-ASCII byte string (letter `a` repeated) yields one
character per byte. -/
theorem decode_ascii_replicate (n : Nat) : ∀ fuel, n ≤ fuel →
    decodeUtf8IgnoreAux fuel (List.replicate n 97) = List.replicate n 'a' := by
  induction n with
  | zero => intro fuel _; cases fuel <;> simp [decodeUtf8IgnoreAux]
  | succ m ih =>
    intro fuel hf
    cases fuel with
    | zero => omega
    | succ f =>
      have hc : Char.ofNat 97 = 'a' := rfl
      simp [List.replicate, decodeUtf8IgnoreAux, hc, ih f (by omega)]

/-- The plain-text extraction path returns one character per ASCII input byte:
no character cap is applied anywhere in `ContentExtractor.extract`. -/
theorem extract_text_ascii_length (n : Nat) (pypdf docxa : Bool) (parsed : ParseOutcome) :
    (ContentExtractor.extract (List.replicate n 97) "text/plain" pypdf docxa parsed).length
      = n := by
  have hdisp : ContentExtractor.extract (List.replicate n 97) "text/plain" pypdf docxa parsed
      = ContentExtractor.extract_from_text (List.replicate n 97) := rfl
  rw [hdisp]
  unfold ContentExtractor.extract_from_text pyDecodeUtf8Ignore
  rw [List.length_replicate, decode_ascii_replicate n n (le_refl n)]
  simp [String.length]

/-- C4 counterexample: a plain-text upload of 10001 ASCII bytes extracts to a
10001-character string, exceeding every cap the spec contemplates (2,000 to
10,000 characters): the extractor applies no character cap. -/
theorem C4_cap_exceeded_cex :
    10000 < (ContentExtractor.extract (List.replicate 10001 97) "text/plain" true true
        (Except.ok [])).length := by
  rw [extract_text_ascii_length 10001 true true (Except.ok [])]
  omega

/-- C4 (amended): `ContentExtractor.extract` applies no character cap at all:
on the plain-text path the returned text has exactly one character per ASCII
input byte for arbitrarily large inputs, so its length is unbounded. -/
theorem C4_extractor_has_no_cap (n : Nat) (pypdf docxa : Bool) (parsed : ParseOutcome) :
    (ContentExtractor.extract (List.replicate n 97) "text/plain" pypdf docxa parsed).length
      = n :=
  extract_text_ascii_length n pypdf docxa parsed

/-- C5 counterexample: with the budget toggle off, a failed first external
call is retried against the external service with the budget model — two
external calls occur and the final result comes from the service's second
reply, not from the deterministic fallback. -/
theorem C5_retry_uses_second_reply_cex :
    (AIPitchGenerator.generate_with_openai true cfg0
        [none, some [("tagline", "From the retry call")]] req0 "August 2025").1
      = AIPitchGenerator.format_pitch_response [("tagline", "From the retry call")] req0 ∧
    (AIPitchGenerator.generate_with_openai true cfg0
        [none, some [("tagline", "From the retry call")]] req0 "August 2025").2.2 = 2 :=
  ⟨rfl, rfl⟩

/-- C5 (amended): when `USE_BUDGET_MODEL` is already true, a single failed
call goes straight to the fallback (one external call); when it is false, a
failed call is retried once with the budget model, and only after that second
failure does the generator fall back — two external calls in total. -/
theorem C5_failed_call_retried_with_budget_model (cfg : Config)
    (outcomes : List (Option (List (String × String)))) (req : PitchRequest) (now : String)
    (h1 : outcomes.headD none = none) (h2 : outcomes.tail.headD none = none) :
    (AIPitchGenerator.generate_with_openai true cfg outcomes req now).1
      = AIPitchGenerator.generate_mock_pitch req now ∧
    (AIPitchGenerator.generate_with_openai true cfg outcomes req now).2.2
      = (if cfg.USE_BUDGET_MODEL then 1 else 2) := by
  unfold AIPitchGenerator.generate_with_openai AIPitchGenerator.openai_budget_call
  rw [h1, h2]
  by_cases hb : cfg.USE_BUDGET_MODEL <;> simp [hb]

/-- Witness for C5: with no service outcomes every call fails; `cfg0` has the
budget toggle off, so two calls are made before the fallback. -/
theorem C5_failed_call_retried_with_budget_model_witness :
    (AIPitchGenerator.generate_with_openai true cfg0 [] req0 "August 2025").1
      = AIPitchGenerator.generate_mock_pitch req0 "August 2025" ∧
    (AIPitchGenerator.generate_with_openai true cfg0 [] req0 "August 2025").2.2
      = (if cfg0.USE_BUDGET_MODEL then 1 else 2) :=
  C5_failed_call_retried_with_budget_model cfg0 [] req0 "August 2025" rfl rfl

/-- C6 counterexample: handling one request mutates the process-wide
configuration — `USE_BUDGET_MODEL` flips from `false` to `true` when the
non-budget external call fails. -/
theorem C6_budget_toggle_mutated_cex :
    cfg0.USE_BUDGET_MODEL = false ∧
    (generate_pitch true cfg0 [none, none] data0 "August 2025").2.1.USE_BUDGET_MODEL
      = true :=
  ⟨rfl, rfl⟩

/-- C6 (amended): handling any request leaves every configuration field
unchanged except `USE_BUDGET_MODEL`: the credentials, provider, model name
and size limit are read-only, while the budget toggle can be set to true by a
failing non-budget call. -/
theorem C6_config_fields_frame (aiClient : Bool) (cfg : Config)
    (outcomes : List (Option (List (String × String)))) (data : RequestData)
    (now : String) :
    ((generate_pitch aiClient cfg outcomes data now).2.1).SECRET_KEY = cfg.SECRET_KEY ∧
    ((generate_pitch aiClient cfg outcomes data now).2.1).AI_PROVIDER = cfg.AI_PROVIDER ∧
    ((generate_pitch aiClient cfg outcomes data now).2.1).OPENAI_API_KEY
      = cfg.OPENAI_API_KEY ∧
    ((generate_pitch aiClient cfg outcomes data now).2.1).OPENAI_MODEL = cfg.OPENAI_MODEL ∧
    ((generate_pitch aiClient cfg outcomes data now).2.1).ANTHROPIC_API_KEY
      = cfg.ANTHROPIC_API_KEY ∧
    ((generate_pitch aiClient cfg outcomes data now).2.1).MAX_CONTENT_LENGTH
      = cfg.MAX_CONTENT_LENGTH := by
  unfold generate_pitch AIPitchGenerator.generate AIPitchGenerator.generate_with_openai
    AIPitchGenerator.generate_with_anthropic AIPitchGenerator.openai_budget_call
  repeat' split
  all_goals simp

/-- C8 counterexample: the same `PitchRequest` run through the fallback at two
different clock readings produces different `title` texts, so the fallback
output is not a function of the request inputs alone. -/
theorem C8_title_differs_across_time_cex :
    ((AIPitchGenerator.generate_mock_pitch req0 "August 2025").lookup "title")
      ≠ ((AIPitchGenerator.generate_mock_pitch req0 "September 2025").lookup "title") := by
  decide

/-- C8 (amended): the fallback is a pure function of the request and the
observed date: every field except `title` is identical across invocations
regardless of the clock, and the `title` field embeds the observed
month-and-year string (so two invocations agree on it exactly when they
observe the same formatted date). -/
theorem C8_fallback_pure_except_title (req : PitchRequest) (now1 now2 : String) :
    (AIPitchGenerator.generate_mock_pitch req now1).filter (fun p => p.1 != "title")
      = (AIPitchGenerator.generate_mock_pitch req now2).filter (fun p => p.1 != "title") ∧
    (∃ pre : String,
      ((AIPitchGenerator.generate_mock_pitch req now1).lookup "title").getD ""
        = pre ++ now1) :=
  ⟨rfl, ⟨_, rfl⟩⟩

/-- C9: the funding stage maps to the display funding-range string through
the fixed `funding_amounts` table — each of the five stages to its range,
every other stage to the default `"$5M"` — and the fallback's ask slide embeds
the mapped string. -/
theorem C9_funding_stage_lookup_table (s : String) (req : PitchRequest) (now : String)
    (h : ¬ s ∈ ["pre-seed", "seed", "series-a", "series-b", "series-c"]) :
    funding_amounts "pre-seed" = "$500K - $1M" ∧
    funding_amounts "seed" = "$2M - $5M" ∧
    funding_amounts "series-a" = "$10M - $15M" ∧
    funding_amounts "series-b" = "$20M - $50M" ∧
    funding_amounts "series-c" = "$50M+" ∧
    funding_amounts s = "$5M" ∧
    (∃ pre post : String,
      ((AIPitchGenerator.generate_mock_pitch req now).lookup "ask").getD ""
        = pre ++ funding_amounts req.funding_stage ++ post) := by
  refine ⟨rfl, rfl, rfl, rfl, rfl, ?_, ⟨_, _, rfl⟩⟩
  simp only [List.mem_cons, List.not_mem_nil, or_false, not_or] at h
  obtain ⟨h1, h2, h3, h4, h5⟩ := h
  simp [funding_amounts, h1, h2, h3, h4, h5]

/-- Witness for C9: the out-of-table stage `"angel"` maps to the default
`"$5M"`, and `req0`'s ask slide embeds its mapped funding range. -/
theorem C9_funding_stage_lookup_table_witness :
    funding_amounts "pre-seed" = "$500K - $1M" ∧
    funding_amounts "seed" = "$2M - $5M" ∧
    funding_amounts "series-a" = "$10M - $15M" ∧
    funding_amounts "series-b" = "$20M - $50M" ∧
    funding_amounts "series-c" = "$50M+" ∧
    funding_amounts "angel" = "$5M" ∧
    (∃ pre post : String,
      ((AIPitchGenerator.generate_mock_pitch req0 "August 2025").lookup "ask").getD ""
        = pre ++ funding_amounts req0.funding_stage ++ post) :=
  C9_funding_stage_lookup_table "angel" req0 "August 2025" (by decide)
